import Mathlib

/-!
Verification of the conversion core of the anthropic/openai bridge.

The Python converters (`RequestConverter`, `ResponseConverter`, `ToolConverter`)
are shallowly embedded as pure Lean functions.  Python strings are modelled by
Lean `String`, with slicing and prefix tests expressed over the code-point list
`String.data` (matching Python's code-point semantics).  Python dicts holding
JSON-decoded data are modelled by the `Json` inductive below; `json.loads` and
`json.dumps` are external library calls and enter the embedding as explicit
function parameters (`json_loads : String → Option Json`, where `none` stands
for `json.JSONDecodeError`, and `json_dumps : Json → String`).  Fresh
randomness (`uuid.uuid4().hex`) enters as an explicit string parameter.
Fallible Python code (dict key access that may raise `KeyError`, list indexing
that may raise `IndexError`, the explicit `raise`) is embedded in `Except`.
-/

namespace Bridge

/-- Python `s.startswith(p)`: code-point prefix test. -/
def py_startswith (s p : String) : Bool :=
  p.data.isPrefixOf s.data

/-- Python slicing `s[n:]`: drop the first `n` code points. -/
def py_drop (s : String) (n : Nat) : String :=
  ⟨s.data.drop n⟩

/-- Python slicing `s[:n]`: take the first `n` code points. -/
def py_take (s : String) (n : Nat) : String :=
  ⟨s.data.take n⟩

/-- Python `s.upper()`: uppercase each code point (ASCII payloads here). -/
def py_upper (s : String) : String :=
  ⟨s.data.map Char.toUpper⟩

/-- The characters Python's `str.strip()` removes (ASCII whitespace;
the converters only meet ASCII payloads). -/
def py_isspace (c : Char) : Bool :=
  c = ' ' || c = '\t' || c = '\n' || c = '\r' || c = '\x0b' || c = '\x0c'

/-- Truthiness of Python `s.strip()`: `true` iff some code point is
not whitespace, i.e. the stripped string is non-empty. -/
def py_strip_truthy (s : String) : Bool :=
  s.data.any (fun c => !(py_isspace c))

/-- JSON-decoded Python values: the payloads that flow through the
converters (contents of `json.loads`, tool inputs, schemas, tool choices). -/
inductive Json where
  | null : Json
  | bool (b : Bool) : Json
  | num (n : Int) : Json
  | str (s : String) : Json
  | arr (elems : List Json) : Json
  | obj (fields : List (String × Json)) : Json

/-- The `function` payload of an OpenAI tool call:
`{"name": ..., "arguments": <JSON string>}`. -/
structure FunctionCall where
  name : String
  arguments : String

/-- An OpenAI tool-call record `{"id", "type", "function"}`. -/
structure OpenAIToolCall where
  id : String
  type : String
  function : FunctionCall

/-- An `anthropic.types.ToolUseBlock` as constructed by the converter. -/
structure ToolUseBlock where
  type : String
  id : String
  name : String
  input : Json

/-- Content blocks of an inbound (Anthropic-format) message, the dicts the
request converter dispatches on via `block.get("type")`.  `other` stands for
any block whose type tag is none of the three recognised ones (or a non-dict
entry): the code never looks inside such blocks. -/
inductive InContentBlock where
  | text (text : String)
  | toolUse (id : String) (name : String) (input : Json)
  | toolResult (tool_use_id : String) (name : Option String) (content : Json)
  | other

/-- Outbound (OpenAI-format) chat messages produced by the request
converter: a plain `{"role", "content"}` dict, an assistant message carrying
`"tool_calls"` (whose `"content"` may be `None`), or a tool-role message
`{"role": "tool", "tool_call_id", "name", "content"}`. -/
inductive OutboundMsg where
  | plain (role : String) (content : String)
  | withToolCalls (role : String) (content : Option String)
      (tool_calls : List OpenAIToolCall)
  | tool (tool_call_id : String) (name : String) (content : Json)

namespace ToolConverter

/-- `ToolConverter.convert_anthropic_tools_to_openai` input element:
an Anthropic tool definition dict (required keys). -/
structure AnthropicToolDef where
  name : String
  description : String
  input_schema : Json

/-- The `function` payload of an OpenAI tool definition. -/
structure FunctionDef where
  name : String
  description : String
  parameters : Json

/-- The OpenAI function-wrapped tool definition emitted for each input. -/
structure OpenAIToolDef where
  type : String
  function : FunctionDef

/-- `ToolConverter.convert_anthropic_tools_to_openai`: wrap each Anthropic
tool definition as `{"type": "function", "function": {name, description,
parameters: input_schema}}`. -/
def convert_anthropic_tools_to_openai (anthropic_tools : List AnthropicToolDef) :
    List OpenAIToolDef :=
  anthropic_tools.map fun tool =>
    { type := "function"
      function :=
        { name := tool.name
          description := tool.description
          parameters := tool.input_schema } }

/-- `ToolConverter._convert_tool_call_id`: strip a leading `"call_"` if
present, then prepend `"toolu_"`. -/
def convert_tool_call_id (openai_call_id : String) : String :=
  let suffix :=
    if py_startswith openai_call_id "call_" then py_drop openai_call_id 5
    else openai_call_id
  "toolu_" ++ suffix

/-- `ToolConverter._convert_tool_use_id_to_call_id`: strip a leading
`"toolu_"` if present, then prepend `"call_"`. -/
def convert_tool_use_id_to_call_id (anthropic_tool_use_id : String) : String :=
  let suffix :=
    if py_startswith anthropic_tool_use_id "toolu_" then py_drop anthropic_tool_use_id 6
    else anthropic_tool_use_id
  "call_" ++ suffix

/-- `ToolConverter.convert_openai_tool_calls_to_anthropic`: for each call of
type `"function"`, parse its `function.arguments` with `json_loads`
(`json.loads`; `none` = `JSONDecodeError`, in which case an empty dict is
substituted), remap the id, and build a `ToolUseBlock`.  Calls of any other
type are skipped. -/
def convert_openai_tool_calls_to_anthropic (json_loads : String → Option Json)
    (openai_tool_calls : List OpenAIToolCall) : List ToolUseBlock :=
  openai_tool_calls.filterMap fun tool_call =>
    if tool_call.type = "function" then
      let arguments := (json_loads tool_call.function.arguments).getD (Json.obj [])
      let anthropic_id := convert_tool_call_id tool_call.id
      some { type := "tool_use"
             id := anthropic_id
             name := tool_call.function.name
             input := arguments }
    else
      none

/-- `ToolConverter.convert_anthropic_tool_results_to_openai`: each block of
type `"tool_result"` becomes a tool-role message with the remapped call id,
`name` defaulting to `"unknown"`, and the block's content; other blocks are
filtered out. -/
def convert_anthropic_tool_results_to_openai (anthropic_content : List InContentBlock) :
    List OutboundMsg :=
  anthropic_content.filterMap fun content_block =>
    match content_block with
    | .toolResult tool_use_id name content =>
        some (.tool (convert_tool_use_id_to_call_id tool_use_id)
          (name.getD "unknown") content)
    | _ => none

/-- `ToolConverter.convert_tool_choice_to_openai`.  The input is the
JSON-decoded `tool_choice` value (a string, a dict, or anything else).  A
dict whose `"type"` is `"tool"` is rewrapped, reading its `"name"` key —
which raises `KeyError` when absent, embedded as `Except.error`; every other
shape falls through unchanged. -/
def convert_tool_choice_to_openai (anthropic_tool_choice : Json) :
    Except String Json :=
  match anthropic_tool_choice with
  | .str s =>
      if s = "auto" then .ok (.str "auto")
      else if s = "any" then .ok (.str "required")
      else .ok (.str s)
  | .obj fields =>
      match fields.lookup "type" with
      | some (.str "tool") =>
          match fields.lookup "name" with
          | some n =>
              .ok (.obj [("type", .str "function"), ("function", .obj [("name", n)])])
          | none => .error "KeyError: name"
      | some _ => .ok (.obj fields)
      | none => .ok (.obj fields)
  | choice => .ok choice

end ToolConverter

/-- The `"error"` value of an OpenAI error envelope; its `"message"` key may
be absent (`.get("message", "Unknown error")`). -/
structure ErrorObj where
  message : Option String

/-- The `"message"` dict of an OpenAI choice: `content` may be `None` or
absent, `tool_calls` may be absent. -/
structure OpenAIMessage where
  content : Option String
  tool_calls : Option (List OpenAIToolCall)

/-- One element of the OpenAI response's `"choices"` list; `finish_reason`
may be absent (`choice.get("finish_reason", "stop")`). -/
structure Choice where
  message : OpenAIMessage
  finish_reason : Option String

/-- The OpenAI `"usage"` dict with optional token counts. -/
structure OpenAIUsage where
  prompt_tokens : Option Nat
  completion_tokens : Option Nat

/-- An OpenAI ChatCompletions response as consumed by
`ResponseConverter.convert`.  `choices = none` models a missing `"choices"`
key (Python would raise `KeyError` on access). -/
structure OpenAIResponse where
  error : Option ErrorObj
  choices : Option (List Choice)
  usage : Option OpenAIUsage
  model : Option String

/-- Content blocks of the produced `anthropic.types.Message`. -/
inductive ContentBlock where
  | text (text : String)
  | toolUse (block : ToolUseBlock)

/-- `anthropic.types.Usage`. -/
structure Usage where
  input_tokens : Nat
  output_tokens : Nat

/-- The `anthropic.types.Message` built by `ResponseConverter.convert`. -/
structure AnthropicMessage where
  id : String
  type : String
  role : String
  content : List ContentBlock
  model : String
  stop_reason : String
  stop_sequence : Option String
  usage : Usage

namespace ResponseConverter

/-- `ResponseConverter.STOP_REASON_MAPPING`. -/
def STOP_REASON_MAPPING : List (String × String) :=
  [("stop", "end_turn"),
   ("length", "max_tokens"),
   ("content_filter", "end_turn"),
   ("function_call", "tool_use"),
   ("tool_calls", "tool_use")]

/-- `ResponseConverter._convert_stop_reason`:
`STOP_REASON_MAPPING.get(openai_finish_reason, "end_turn")`. -/
def convert_stop_reason (openai_finish_reason : String) : String :=
  (STOP_REASON_MAPPING.lookup openai_finish_reason).getD "end_turn"

/-- `ResponseConverter._build_content_blocks`: a Text block when
`message.get("content")` is truthy (a non-empty string), then the converted
tool-use blocks when `"tool_calls"` is present and truthy (a non-empty
list), and a single empty Text block when nothing else was produced. -/
def build_content_blocks (json_loads : String → Option Json)
    (message : OpenAIMessage) : List ContentBlock :=
  let content : List ContentBlock :=
    match message.content with
    | some s => if s ≠ "" then [.text s] else []
    | none => []
  let content : List ContentBlock :=
    match message.tool_calls with
    | some tool_calls =>
        if ¬ tool_calls.isEmpty then
          content ++
            (ToolConverter.convert_openai_tool_calls_to_anthropic json_loads
              tool_calls).map ContentBlock.toolUse
        else content
    | none => content
  if content.isEmpty then [.text ""] else content

/-- `ResponseConverter.convert`.  `json_loads` stands for `json.loads` (used
on tool-call arguments), `uuid_hex` for the fresh `uuid.uuid4().hex` draw
used to mint the message id.  The explicit `raise` on an error envelope, the
`KeyError` on a missing `"choices"` key and the `IndexError` on an empty
choices list are embedded as `Except.error`. -/
def convert (json_loads : String → Option Json) (openai_response : OpenAIResponse)
    (uuid_hex : String) : Except String AnthropicMessage :=
  match openai_response.error with
  | some err =>
      .error ("OpenAI API Error: " ++ err.message.getD "Unknown error")
  | none =>
    match openai_response.choices with
    | none => .error "KeyError: choices"
    | some [] => .error "IndexError: list index out of range"
    | some (choice :: _) =>
        let message := choice.message
        let content := build_content_blocks json_loads message
        let usage : Usage :=
          { input_tokens :=
              (openai_response.usage.bind OpenAIUsage.prompt_tokens).getD 0
            output_tokens :=
              (openai_response.usage.bind OpenAIUsage.completion_tokens).getD 0 }
        .ok
          { id := "msg_" ++ py_upper (py_take uuid_hex 8)
            type := "message"
            role := "assistant"
            content := content
            model := openai_response.model.getD "unknown"
            stop_reason := convert_stop_reason (choice.finish_reason.getD "stop")
            stop_sequence := none
            usage := usage }

end ResponseConverter

/-- The `content` field of an inbound message: a plain string or a list of
content blocks (the two shapes `_convert_message_content` recognises;
anything else yields `None` in Python, see `convert_message_content`). -/
inductive InContent where
  | str (s : String)
  | blocks (bs : List InContentBlock)

/-- An inbound (Anthropic-format) message. -/
structure InMessage where
  role : String
  content : InContent

/-- An Anthropic Messages API request as consumed by
`RequestConverter.convert` (optional keys are `Option`; the `messages` key
is read with `.get("messages", [])`). -/
structure AnthropicRequest where
  model : Option String
  max_tokens : Option Nat
  temperature : Option Rat
  system : Option String
  tools : Option (List ToolConverter.AnthropicToolDef)
  tool_choice : Option Json
  messages : List InMessage

/-- The OpenAI ChatCompletions request dict built by
`RequestConverter.convert`; `Option` fields model key presence. -/
structure OpenAIRequest where
  model : Option String
  max_completion_tokens : Option Nat
  temperature : Option Rat
  tools : Option (List ToolConverter.OpenAIToolDef)
  tool_choice : Option Json
  messages : List OutboundMsg

/-- Return shape of `RequestConverter._convert_message_content`: one
outbound message dict or a list of them (`None` is the surrounding
`Option`). -/
inductive ConvertedMessage where
  | single (m : OutboundMsg)
  | multiple (ms : List OutboundMsg)

namespace RequestConverter

/-- The text payloads of the blocks of type `"text"`, in order
(`[block for block in content if block.get("type") == "text"]`, each then
read at `block["text"]`). -/
def text_contents (content : List InContentBlock) : List String :=
  content.filterMap fun block =>
    match block with
    | .text t => some t
    | _ => none

/-- `block.get("type") == "tool_result"`. -/
def is_tool_result_block : InContentBlock → Bool
  | .toolResult _ _ _ => true
  | _ => false

/-- The `(id, name, input)` fields of the blocks of type `"tool_use"`, in
order (`[block for block in content if block.get("type") == "tool_use"]`,
each then read at `block["id"]`, `block["name"]`, `block["input"]`). -/
def tool_use_triples (content : List InContentBlock) : List (String × String × Json) :=
  content.filterMap fun block =>
    match block with
    | .toolUse id name input => some (id, name, input)
    | _ => none

/-- `RequestConverter._convert_message_content`.  `json_dumps` stands for
`json.dumps`, used to serialize each tool-use block's `input`. -/
def convert_message_content (json_dumps : Json → String) (message : InMessage) :
    Option ConvertedMessage :=
  let role := message.role
  match message.content with
  | .str s => some (.single (.plain role s))
  | .blocks content =>
    let tool_result_blocks := content.filter is_tool_result_block
    if ¬ tool_result_blocks.isEmpty then
      let tool_messages := ToolConverter.convert_anthropic_tool_results_to_openai content
      let text_blocks := text_contents content
      let regular_messages : List OutboundMsg :=
        if ¬ text_blocks.isEmpty then
          let text_content := " ".intercalate text_blocks
          if py_strip_truthy text_content then [.plain role text_content] else []
        else []
      some (.multiple (regular_messages ++ tool_messages))
    else
      let tool_use_blocks := tool_use_triples content
      if ¬ tool_use_blocks.isEmpty then
        let text_blocks := text_contents content
        let content_val : Option String :=
          if ¬ text_blocks.isEmpty then
            let text_content := " ".intercalate text_blocks
            if py_strip_truthy text_content then some text_content else none
          else none
        let tool_calls : List OpenAIToolCall :=
          tool_use_blocks.map fun block =>
            { id := ToolConverter.convert_tool_use_id_to_call_id block.1
              type := "function"
              function :=
                { name := block.2.1
                  arguments := json_dumps block.2.2 } }
        some (.single (.withToolCalls role content_val tool_calls))
      else
        let text_blocks := text_contents content
        if ¬ text_blocks.isEmpty then
          let text_content := " ".intercalate text_blocks
          if py_strip_truthy text_content then some (.single (.plain role text_content))
          else none
        else none

/-- `RequestConverter._convert_messages_with_tools`: an optional leading
system message, then each inbound message with role `"user"` or
`"assistant"` converted and appended (a single dict) or extended (a list);
other roles are silently dropped. -/
def convert_messages_with_tools (json_dumps : Json → String)
    (anthropic_request : AnthropicRequest) : List OutboundMsg :=
  let system_messages : List OutboundMsg :=
    match anthropic_request.system with
    | some s => [.plain "system" s]
    | none => []
  system_messages ++ anthropic_request.messages.flatMap fun message =>
    if message.role = "user" ∨ message.role = "assistant" then
      match convert_message_content json_dumps message with
      | some (.single m) => [m]
      | some (.multiple ms) => ms
      | none => []
    else []

/-- `RequestConverter.convert`.  The only fallible step is the tool-choice
mapping (its `KeyError`, see
`ToolConverter.convert_tool_choice_to_openai`). -/
def convert (json_dumps : Json → String) (anthropic_request : AnthropicRequest) :
    Except String OpenAIRequest :=
  let build : Option Json → OpenAIRequest := fun tool_choice =>
    { model := anthropic_request.model
      max_completion_tokens := anthropic_request.max_tokens
      temperature := anthropic_request.temperature
      tools := anthropic_request.tools.map
        ToolConverter.convert_anthropic_tools_to_openai
      tool_choice := tool_choice
      messages := convert_messages_with_tools json_dumps anthropic_request }
  match anthropic_request.tool_choice with
  | some choice =>
      match ToolConverter.convert_tool_choice_to_openai choice with
      | .ok converted => .ok (build (some converted))
      | .error e => .error e
  | none => .ok (build none)

end RequestConverter

/-! ### Helper lemmas -/

theorem py_startswith_append (p s : String) : py_startswith (p ++ s) p = true := by
  show p.data.isPrefixOf ((p ++ s).data) = true
  rw [String.data_append, List.isPrefixOf_iff_prefix]
  exact List.prefix_append p.data s.data

theorem py_drop_append (p s : String) : py_drop (p ++ s) p.data.length = s := by
  show String.mk (((p ++ s).data).drop p.data.length) = s
  rw [String.data_append, List.drop_left]

theorem py_drop_toolu (s : String) : py_drop ("toolu_" ++ s) 6 = s :=
  py_drop_append "toolu_" s

theorem py_drop_call (s : String) : py_drop ("call_" ++ s) 5 = s :=
  py_drop_append "call_" s

theorem convert_tool_use_id_of_toolu (s : String) :
    ToolConverter.convert_tool_use_id_to_call_id ("toolu_" ++ s) = "call_" ++ s := by
  simp only [ToolConverter.convert_tool_use_id_to_call_id, py_startswith_append,
    if_true, py_drop_toolu]

theorem convert_tool_call_id_of_call (s : String) :
    ToolConverter.convert_tool_call_id ("call_" ++ s) = "toolu_" ++ s := by
  simp only [ToolConverter.convert_tool_call_id, py_startswith_append,
    if_true, py_drop_call]

/-- The tool-choice mapping as the (amended) spec words it, for comparison
with the source's `ToolConverter.convert_tool_choice_to_openai`: `"auto"` →
`"auto"`, `"any"` → `"required"`, other strings unchanged; an object whose
`"type"` is `"tool"` and that has a `"name"` is rewrapped as
`{type: "function", function: {name}}`, one whose `"type"` is `"tool"` but
that lacks a `"name"` raises `KeyError`; every other shape passes through
unchanged. -/
def tool_choice_to_outbound_spec (choice : Json) : Except String Json :=
  match choice with
  | .str s =>
      if s = "auto" then .ok (.str "auto")
      else if s = "any" then .ok (.str "required")
      else .ok (.str s)
  | .obj fields =>
      match fields.lookup "type", fields.lookup "name" with
      | some (.str "tool"), some n =>
          .ok (.obj [("type", .str "function"), ("function", .obj [("name", n)])])
      | some (.str "tool"), none => .error "KeyError: name"
      | _, _ => .ok (.obj fields)
  | other => .ok other

/-! ### Claims -/

/-- C1, counterexample.  The identifier `"abc"` carries neither prefix, so
it does not begin with the opposite-direction prefix in either direction;
yet neither composite maps it back to itself: both round trips attach a
prefix it never had. -/
theorem c1_round_trip_counterexample :
    py_startswith "abc" "call_" = false ∧
    ToolConverter.convert_tool_call_id
      (ToolConverter.convert_tool_use_id_to_call_id "abc") = "toolu_abc" ∧
    "toolu_abc" ≠ "abc" ∧
    py_startswith "abc" "toolu_" = false ∧
    ToolConverter.convert_tool_use_id_to_call_id
      (ToolConverter.convert_tool_call_id "abc") = "call_abc" ∧
    "call_abc" ≠ "abc" := by
  refine ⟨rfl, rfl, ?_, rfl, rfl, ?_⟩ <;> decide

/-- C1 (amended): the identifier remapping round-trips exactly on every
identifier that carries the same-direction prefix: for every string `s`,
`outboundToInbound (inboundToOutbound ("toolu_" ++ s)) = "toolu_" ++ s` and
`inboundToOutbound (outboundToInbound ("call_" ++ s)) = "call_" ++ s`.  (An
id carrying neither prefix gains one and does not round-trip.) -/
theorem c1_round_trip_amended (s : String) :
    ToolConverter.convert_tool_call_id
      (ToolConverter.convert_tool_use_id_to_call_id ("toolu_" ++ s)) = "toolu_" ++ s ∧
    ToolConverter.convert_tool_use_id_to_call_id
      (ToolConverter.convert_tool_call_id ("call_" ++ s)) = "call_" ++ s := by
  constructor
  · rw [convert_tool_use_id_of_toolu, convert_tool_call_id_of_call]
  · rw [convert_tool_call_id_of_call, convert_tool_use_id_of_toolu]

/-- C3: `_convert_stop_reason` is a total function on strings given by the
fixed table `stop → end_turn`, `length → max_tokens`,
`content_filter → end_turn`, `function_call → tool_use`,
`tool_calls → tool_use`, with every other string mapped to `end_turn`; being
a total function of the embedding, it never raises. -/
theorem c3_stop_reason_total (s : String) :
    ResponseConverter.convert_stop_reason s =
      if s = "stop" then "end_turn"
      else if s = "length" then "max_tokens"
      else if s = "content_filter" then "end_turn"
      else if s = "function_call" then "tool_use"
      else if s = "tool_calls" then "tool_use"
      else "end_turn" := by
  simp only [ResponseConverter.convert_stop_reason,
    ResponseConverter.STOP_REASON_MAPPING, List.lookup]
  split_ifs with h1 h2 h3 h4 h5 <;> try (subst_vars; rfl)
  simp [beq_eq_false_iff_ne.mpr h1, beq_eq_false_iff_ne.mpr h2,
    beq_eq_false_iff_ne.mpr h3, beq_eq_false_iff_ne.mpr h4,
    beq_eq_false_iff_ne.mpr h5]

/-- C8, counterexample.  On the object `{"type": "tool"}` — a shape other
than the listed ones, which the claim says passes through unchanged without
error — `convert_tool_choice_to_openai` raises (`KeyError` on the missing
`"name"` key), refuting "never raising an error". -/
theorem c8_tool_choice_counterexample :
    ToolConverter.convert_tool_choice_to_openai (Json.obj [("type", Json.str "tool")]) =
      .error "KeyError: name" := rfl

/-- C8 (amended): `convert_tool_choice_to_openai` agrees everywhere with
the corrected table `tool_choice_to_outbound_spec`: `"auto"` → `"auto"`,
`"any"` → `"required"`, any other string unchanged, `{type: "tool", name}` →
`{type: "function", function: {name}}`, an object with `"type" = "tool"`
but no `"name"` key raises `KeyError`, and any other shape passes through
unchanged. -/
theorem c8_tool_choice_amended (choice : Json) :
    ToolConverter.convert_tool_choice_to_openai choice =
      tool_choice_to_outbound_spec choice := by
  cases choice with
  | obj fields =>
      simp only [ToolConverter.convert_tool_choice_to_openai, tool_choice_to_outbound_spec]
      rcases h1 : fields.lookup "type" with _ | t
      · rfl
      · rcases h2 : fields.lookup "name" with _ | n <;> cases t <;> try rfl
        all_goals
          rename_i s
          by_cases h : s = "tool"
        all_goals try (subst h; rfl)
        all_goals split <;> simp_all
  | _ => rfl

/-- C5: `convert_openai_tool_calls_to_anthropic` is total (it never raises:
its embedding returns a plain list, with no error outcome), and for every
call of type `"function"` it parses the `function.arguments` string with
`json_loads` and uses the empty mapping `Json.obj []` as the block's input
whenever parsing fails; each produced block arises this way from a
`"function"` call, so the parse failure is never surfaced to the caller. -/
theorem c5_tool_call_arguments (json_loads : String → Option Json)
    (calls : List OpenAIToolCall) :
    (∀ b ∈ ToolConverter.convert_openai_tool_calls_to_anthropic json_loads calls,
       ∃ tc ∈ calls, tc.type = "function" ∧
         b = { type := "tool_use"
               id := ToolConverter.convert_tool_call_id tc.id
               name := tc.function.name
               input := (json_loads tc.function.arguments).getD (Json.obj []) } ∧
         (json_loads tc.function.arguments = none → b.input = Json.obj [])) ∧
    (∀ tc ∈ calls, tc.type = "function" →
       ({ type := "tool_use"
          id := ToolConverter.convert_tool_call_id tc.id
          name := tc.function.name
          input := (json_loads tc.function.arguments).getD (Json.obj []) } :
            ToolUseBlock) ∈
         ToolConverter.convert_openai_tool_calls_to_anthropic json_loads calls) := by
  constructor
  · intro b hb
    rw [ToolConverter.convert_openai_tool_calls_to_anthropic, List.mem_filterMap] at hb
    obtain ⟨tc, htc, hf⟩ := hb
    by_cases ht : tc.type = "function"
    · rw [if_pos ht] at hf
      obtain rfl := Option.some.inj hf
      refine ⟨tc, htc, ht, rfl, fun hn => ?_⟩
      simp [hn]
    · rw [if_neg ht] at hf
      cases hf
  · intro tc htc ht
    rw [ToolConverter.convert_openai_tool_calls_to_anthropic, List.mem_filterMap]
    exact ⟨tc, htc, by rw [if_pos ht]⟩

/-- C5, witness: a single `"function"` call whose arguments string is not
JSON (`json_loads` fails) yields a ToolUse block whose input is the empty
mapping. -/
theorem c5_tool_call_arguments_witness :
    ({ type := "tool_use", id := "toolu_1", name := "f", input := Json.obj [] } :
        ToolUseBlock) ∈
      ToolConverter.convert_openai_tool_calls_to_anthropic (fun _ => none)
        [{ id := "call_1", type := "function",
           function := { name := "f", arguments := "not json" } }] :=
  (c5_tool_call_arguments (fun _ => none) _).2
    { id := "call_1", type := "function",
      function := { name := "f", arguments := "not json" } }
    (by simp) rfl

theorem ite_isEmpty_ne_nil (t : ContentBlock) (l : List ContentBlock) :
    (if l.isEmpty then [t] else l) ≠ [] := by
  split
  · simp
  · rename_i h
    simpa [List.isEmpty_iff] using h

theorem build_content_blocks_ne_nil (json_loads : String → Option Json)
    (message : OpenAIMessage) :
    ResponseConverter.build_content_blocks json_loads message ≠ [] := by
  unfold ResponseConverter.build_content_blocks
  exact ite_isEmpty_ne_nil _ _

theorem build_content_blocks_default (json_loads : String → Option Json)
    (message : OpenAIMessage)
    (h1 : message.content = none ∨ message.content = some "")
    (h2 : ∀ calls, message.tool_calls = some calls →
        ToolConverter.convert_openai_tool_calls_to_anthropic json_loads calls = []) :
    ResponseConverter.build_content_blocks json_loads message = [ContentBlock.text ""] := by
  unfold ResponseConverter.build_content_blocks
  cases htc : message.tool_calls with
  | none => rcases h1 with h1 | h1 <;> simp [h1, htc]
  | some calls => rcases h1 with h1 | h1 <;> simp [h1, htc, h2 calls htc]

/-- C2: for every outbound response with no error envelope and at least one
choice, `ResponseConverter.convert` succeeds and the result's content
sequence is non-empty; moreover when the first choice's message has neither
a non-empty content string nor any convertible tool calls, the content is
exactly one empty Text block. -/
theorem c2_content_never_empty (json_loads : String → Option Json)
    (resp : OpenAIResponse) (uuid_hex : String) (choice : Choice) (rest : List Choice)
    (herr : resp.error = none) (hch : resp.choices = some (choice :: rest)) :
    ∃ m, ResponseConverter.convert json_loads resp uuid_hex = .ok m ∧
      m.content ≠ [] ∧
      ((choice.message.content = none ∨ choice.message.content = some "") →
       (∀ calls, choice.message.tool_calls = some calls →
          ToolConverter.convert_openai_tool_calls_to_anthropic json_loads calls = []) →
       m.content = [ContentBlock.text ""]) := by
  simp only [ResponseConverter.convert, herr, hch]
  exact ⟨_, rfl, build_content_blocks_ne_nil json_loads choice.message,
    build_content_blocks_default json_loads choice.message⟩

/-- C2, witness: a response whose only choice has `content = None` and no
tool calls converts successfully to a message whose content is the single
empty Text block. -/
theorem c2_content_never_empty_witness :
    ∃ m, ResponseConverter.convert (fun _ => none)
        { error := none,
          choices := some [{ message := { content := none, tool_calls := none },
                             finish_reason := some "stop" }],
          usage := none, model := some "m" } "0123abcd" = .ok m ∧
      m.content ≠ [] ∧ m.content = [ContentBlock.text ""] := by
  obtain ⟨m, hm, hne, hdef⟩ :=
    c2_content_never_empty (fun _ => none)
      { error := none,
        choices := some [{ message := { content := none, tool_calls := none },
                           finish_reason := some "stop" }],
        usage := none, model := some "m" } "0123abcd"
      { message := { content := none, tool_calls := none },
        finish_reason := some "stop" } [] rfl rfl
  exact ⟨m, hm, hne, hdef (Or.inl rfl) (fun calls hc => by cases hc)⟩

/-- C10: with no error envelope, `ResponseConverter.convert` raises exactly
when the `"choices"` key is missing or bound to an empty list (the
unguarded `choices[0]` access), and returns normally whenever at least one
choice is present. -/
theorem c10_convert_partial_beyond_error (json_loads : String → Option Json)
    (resp : OpenAIResponse) (uuid_hex : String) (herr : resp.error = none) :
    ((resp.choices = none ∨ resp.choices = some []) →
      ∃ e, ResponseConverter.convert json_loads resp uuid_hex = .error e) ∧
    (∀ choice rest, resp.choices = some (choice :: rest) →
      ∃ m, ResponseConverter.convert json_loads resp uuid_hex = .ok m) := by
  constructor
  · rintro (hch | hch)
    · exact ⟨"KeyError: choices", by simp [ResponseConverter.convert, herr, hch]⟩
    · exact ⟨"IndexError: list index out of range",
        by simp [ResponseConverter.convert, herr, hch]⟩
  · intro choice rest hch
    simp only [ResponseConverter.convert, herr, hch]
    exact ⟨_, rfl⟩

/-- C10, witness: with no error envelope, conversion fails on an empty
choices list and succeeds once a choice is present. -/
theorem c10_convert_partial_beyond_error_witness :
    (∃ e, ResponseConverter.convert (fun _ => none)
        { error := none, choices := some [], usage := none, model := none }
        "0123abcd" = .error e) ∧
    (∃ m, ResponseConverter.convert (fun _ => none)
        { error := none,
          choices := some [{ message := { content := some "hi", tool_calls := none },
                             finish_reason := some "stop" }],
          usage := none, model := none } "0123abcd" = .ok m) := by
  constructor
  · exact (c10_convert_partial_beyond_error (fun _ => none)
      { error := none, choices := some [], usage := none, model := none }
      "0123abcd" rfl).1 (Or.inr rfl)
  · exact (c10_convert_partial_beyond_error (fun _ => none)
      { error := none,
        choices := some [{ message := { content := some "hi", tool_calls := none },
                           finish_reason := some "stop" }],
        usage := none, model := none } "0123abcd" rfl).2 _ _ rfl

/-- C6, counterexample.  A response with no `"error"` envelope but an empty
`"choices"` list: `ResponseConverter.convert` raises even though no error
envelope is present, refuting the "only if" direction of the claim. -/
theorem c6_error_envelope_counterexample :
    ({ error := none, choices := some [], usage := none,
       model := none } : OpenAIResponse).error = none ∧
    ResponseConverter.convert (fun _ => none)
      { error := none, choices := some [], usage := none, model := none }
      "0123abcd" = .error "IndexError: list index out of range" :=
  ⟨rfl, rfl⟩

/-- C6 (amended): `ResponseConverter.convert` raises whenever the outbound
response contains an error envelope, and the raised message is the
envelope's message (default `"Unknown error"`) prefixed verbatim with the
fixed marker `"OpenAI API Error: "`; no partial inbound response is
returned (the result is exactly the error).  Among responses having at
least one choice, it raises if and only if the error envelope is present
(it may also raise on a response without choices, see the
counterexample). -/
theorem c6_error_envelope_amended (json_loads : String → Option Json)
    (resp : OpenAIResponse) (uuid_hex : String) :
    (∀ e, resp.error = some e →
       ResponseConverter.convert json_loads resp uuid_hex =
         .error ("OpenAI API Error: " ++ e.message.getD "Unknown error")) ∧
    (∀ choice rest, resp.choices = some (choice :: rest) →
       ((∃ err, ResponseConverter.convert json_loads resp uuid_hex = .error err) ↔
         resp.error.isSome)) := by
  constructor
  · intro e he
    simp [ResponseConverter.convert, he]
  · intro choice rest hch
    cases herr : resp.error with
    | some e =>
        simp only [ResponseConverter.convert, herr, Option.isSome_some]
        exact iff_of_true ⟨_, rfl⟩ trivial
    | none =>
        simp only [ResponseConverter.convert, herr, hch, Option.isSome_none]
        constructor
        · rintro ⟨err, herr2⟩
          cases herr2
        · intro h
          cases h

/-- C6, witness: an error envelope `{error: {message: "Invalid API key"}}`
makes conversion raise with the marker-prefixed message. -/
theorem c6_error_envelope_amended_witness :
    ResponseConverter.convert (fun _ => none)
      { error := some { message := some "Invalid API key" },
        choices := none, usage := none, model := none } "0123abcd" =
      .error "OpenAI API Error: Invalid API key" :=
  (c6_error_envelope_amended (fun _ => none)
    { error := some { message := some "Invalid API key" },
      choices := none, usage := none, model := none } "0123abcd").1
    { message := some "Invalid API key" } rfl

/-- Forget the freshly generated message id, the one field of
`ResponseConverter.convert`'s result that depends on the random
`uuid.uuid4()` draw. -/
def erase_id : Except String AnthropicMessage → Except String AnthropicMessage
  | .ok m => .ok { m with id := "" }
  | .error e => .error e

/-- C4, counterexample.  `ResponseConverter.convert` calls `uuid.uuid4()`
for the generated message id, so two invocations on the same input (here
with the distinct fresh hex draws `"aaaaaaaa"` and `"bbbbbbbb"` that
successive calls produce) yield different outputs: the conversion is not
deterministic as claimed. -/
theorem c4_determinism_counterexample :
    ResponseConverter.convert (fun _ => none)
      { error := none,
        choices := some [{ message := { content := some "hi", tool_calls := none },
                           finish_reason := some "stop" }],
        usage := none, model := some "m" } "aaaaaaaa" ≠
    ResponseConverter.convert (fun _ => none)
      { error := none,
        choices := some [{ message := { content := some "hi", tool_calls := none },
                           finish_reason := some "stop" }],
        usage := none, model := some "m" } "bbbbbbbb" := by
  intro h
  exact absurd
    (congrArg (fun r => match r with | .ok m => m.id | .error e => e) h)
    (by decide)

/-- C4 (amended): `RequestConverter.convert` and the ToolConverter mappings
are pure functions of their inputs (determinism is intrinsic to the
embedding), and `ResponseConverter.convert` is deterministic in every field
except the freshly generated id: for any two uuid draws, the results agree
after erasing the id. -/
theorem c4_determinism_amended (json_loads : String → Option Json)
    (json_dumps : Json → String) (resp : OpenAIResponse)
    (req : AnthropicRequest) (hex₁ hex₂ : String) :
    RequestConverter.convert json_dumps req = RequestConverter.convert json_dumps req ∧
    erase_id (ResponseConverter.convert json_loads resp hex₁) =
      erase_id (ResponseConverter.convert json_loads resp hex₂) := by
  refine ⟨rfl, ?_⟩
  cases herr : resp.error with
  | some e => simp [ResponseConverter.convert, herr, erase_id]
  | none =>
    cases hch : resp.choices with
    | none => simp [ResponseConverter.convert, herr, hch, erase_id]
    | some l =>
        cases l <;> simp [ResponseConverter.convert, herr, hch, erase_id]

/-- C7: when `RequestConverter.convert` succeeds, a `tools` key present as
an empty sequence in the inbound request yields a present-and-empty `tools`
key in the outbound request, and an absent inbound `tools` key yields an
absent outbound one. -/
theorem c7_empty_tools (json_dumps : Json → String) (req : AnthropicRequest)
    (q : OpenAIRequest) (h : RequestConverter.convert json_dumps req = .ok q) :
    (req.tools = some [] → q.tools = some []) ∧
    (req.tools = none → q.tools = none) := by
  have hq : q.tools = req.tools.map ToolConverter.convert_anthropic_tools_to_openai := by
    cases hc : req.tool_choice with
    | none =>
        simp only [RequestConverter.convert, hc] at h
        obtain rfl := Except.ok.inj h
        rfl
    | some choice =>
        cases hcc : ToolConverter.convert_tool_choice_to_openai choice with
        | ok v =>
            simp only [RequestConverter.convert, hc, hcc] at h
            obtain rfl := Except.ok.inj h
            rfl
        | error e =>
            simp only [RequestConverter.convert, hc, hcc] at h
            cases h
  constructor <;> intro ht <;>
    simp [hq, ht, ToolConverter.convert_anthropic_tools_to_openai]

/-- C7, witness: a request whose `tools` is the empty sequence converts to
a request whose `tools` is present and empty. -/
theorem c7_empty_tools_witness :
    (RequestConverter.convert (fun _ => "")
        { model := none, max_tokens := none, temperature := none, system := none,
          tools := some [], tool_choice := none, messages := [] } =
      .ok { model := none, max_completion_tokens := none, temperature := none,
            tools := some [], tool_choice := none, messages := [] }) ∧
    ({ model := none, max_completion_tokens := none, temperature := none,
       tools := some [], tool_choice := none,
       messages := [] } : OpenAIRequest).tools = some [] := by
  refine ⟨rfl, ?_⟩
  exact (c7_empty_tools (fun _ => "")
    { model := none, max_tokens := none, temperature := none, system := none,
      tools := some [], tool_choice := none, messages := [] }
    { model := none, max_completion_tokens := none, temperature := none,
      tools := some [], tool_choice := none, messages := [] } rfl).1 rfl

/-- C9: an inbound message whose block list has at least one ToolUse block
and no ToolResult block converts to exactly one outbound message: role
unchanged, `content` the space-joined text of the Text blocks (null when
there are none or the join is blank after stripping), and one tool call
`{id: mappedId, type: "function", function: {name, arguments:
json.dumps(input)}}` per ToolUse block, in order. -/
theorem c9_tool_use_message (json_dumps : Json → String) (role : String)
    (bs : List InContentBlock)
    (h1 : ∀ id name content, InContentBlock.toolResult id name content ∉ bs)
    (h2 : ∃ id name input, InContentBlock.toolUse id name input ∈ bs) :
    RequestConverter.convert_message_content json_dumps
        { role := role, content := .blocks bs } =
      some (.single (.withToolCalls role
        (if ¬ (RequestConverter.text_contents bs).isEmpty then
           if py_strip_truthy (" ".intercalate (RequestConverter.text_contents bs)) then
             some (" ".intercalate (RequestConverter.text_contents bs))
           else none
         else none)
        ((RequestConverter.tool_use_triples bs).map fun block =>
          { id := ToolConverter.convert_tool_use_id_to_call_id block.1
            type := "function"
            function := { name := block.2.1
                          arguments := json_dumps block.2.2 } }))) := by
  have hres : bs.filter RequestConverter.is_tool_result_block = [] := by
    rw [List.filter_eq_nil_iff]
    intro b hb
    cases b with
    | toolResult id name content => exact absurd hb (h1 id name content)
    | _ => simp [RequestConverter.is_tool_result_block]
  have huse : (RequestConverter.tool_use_triples bs).isEmpty = false := by
    obtain ⟨id, name, input, hin⟩ := h2
    cases hu : (RequestConverter.tool_use_triples bs).isEmpty with
    | false => rfl
    | true =>
        rw [List.isEmpty_iff] at hu
        unfold RequestConverter.tool_use_triples at hu
        rw [List.filterMap_eq_nil_iff] at hu
        cases hu _ hin
  simp only [RequestConverter.convert_message_content, hres, List.isEmpty_nil,
    not_true, if_false, huse, Bool.not_false, if_true]
  rfl

/-- C9, witness: an assistant message with one Text block and one ToolUse
block becomes a single outbound message with the joined text and one
function tool call. -/
theorem c9_tool_use_message_witness :
    RequestConverter.convert_message_content (fun _ => "{}")
        { role := "assistant",
          content := .blocks [.text "hi", .toolUse "toolu_9" "f" (Json.obj [])] } =
      some (.single (.withToolCalls "assistant" (some "hi")
        [{ id := "call_9", type := "function",
           function := { name := "f", arguments := "{}" } }])) := by
  have h := c9_tool_use_message (fun _ => "{}") "assistant"
    [.text "hi", .toolUse "toolu_9" "f" (Json.obj [])]
    (by intro id name content h; simp at h)
    ⟨"toolu_9", "f", Json.obj [], by simp⟩
  rw [h]
  rfl

end Bridge
